import Mathlib

/-!
Shallow embedding of the gccaps gated convolution module
(src/gccaps/gated_conv.py): the GatedConv layer and the block builder,
together with models of the Keras primitives they delegate to
(Conv2D, Activation, Multiply, BatchNormalization, Dropout, MaxPooling2D).
Tensors are 4-D and channels-last, matching the usage in the source.
-/

namespace GCCaps

/-- Padding mode of a convolution or pooling operation. -/
inductive Padding
| valid
| same
deriving DecidableEq, Repr

/-- The data format generic layer option of Keras convolutions. -/
inductive DataFormat
| channelsLast
| channelsFirst
deriving DecidableEq, Repr

/-- Modelled from the framework: Keras conv output length. For padding same
the length is the ceiling of inputLength / stride; for padding valid it is
(inputLength - kSize + 1 + stride - 1) under python floor division. -/
def convOutputLength (inputLength : ℤ) (kSize stride : ℕ) (p : Padding) : ℤ :=
  match p with
  | Padding.same => Int.fdiv (inputLength + stride - 1) stride
  | Padding.valid => Int.fdiv (inputLength - kSize + 1 + stride - 1) stride

/-- A 4-D tensor in channels-last layout: shape fields and a total data
function (reads outside the shape do not affect the semantics). -/
structure Tensor4 where
  batch : ℕ
  height : ℕ
  width : ℕ
  channels : ℕ
  data : ℕ → ℕ → ℕ → ℕ → ℝ

/-- Read a tensor at integer spatial coordinates, with zero padding outside
the spatial extent. -/
def Tensor4.getPadded (x : Tensor4) (b : ℕ) (i j : ℤ) (c : ℕ) : ℝ :=
  if 0 ≤ i ∧ i < (x.height : ℤ) ∧ 0 ≤ j ∧ j < (x.width : ℤ) then
    x.data b i.toNat j.toNat c
  else 0

/-- Modelled from the framework: the leading zero padding used by padding
same (pad top and pad left of the TensorFlow backend); padding valid adds
none. -/
def padBefore (inSize kSize stride : ℕ) (p : Padding) : ℕ :=
  match p with
  | Padding.valid => 0
  | Padding.same =>
      (((convOutputLength inSize kSize stride Padding.same - 1) * stride
        + kSize - inSize).toNat) / 2

/-- Modelled from the framework: a Keras Conv2D layer. The learnable kernel
and bias are owned by the framework; they appear as fields so that the
forward computation is a function of the layer. -/
structure Conv2D where
  filters : ℕ
  kernel_size : ℕ × ℕ
  strides : ℕ × ℕ
  padding : Padding
  dataFormat : DataFormat
  kernelW : ℕ → ℕ → ℕ → ℕ → ℝ
  biasW : ℕ → ℝ

/-- Modelled from the framework: the Conv2D forward computation in
channels-last layout: bias plus the cross-correlation sum over the kernel
window and the input channels, with the default linear activation. -/
def Conv2D.call (l : Conv2D) (x : Tensor4) : Tensor4 :=
  { batch := x.batch
    height := (convOutputLength x.height l.kernel_size.1 l.strides.1 l.padding).toNat
    width := (convOutputLength x.width l.kernel_size.2 l.strides.2 l.padding).toNat
    channels := l.filters
    data := fun b i j f =>
      l.biasW f +
        ∑ ki ∈ Finset.range l.kernel_size.1,
          ∑ kj ∈ Finset.range l.kernel_size.2,
            ∑ c ∈ Finset.range x.channels,
              l.kernelW ki kj c f *
                x.getPadded b
                  ((i * l.strides.1 + ki : ℤ)
                    - padBefore x.height l.kernel_size.1 l.strides.1 l.padding)
                  ((j * l.strides.2 + kj : ℤ)
                    - padBefore x.width l.kernel_size.2 l.strides.2 l.padding)
                  c }

/-- Modelled from the framework: Conv2D output shape. In channels-last the
layout is batch, rows, cols, filters; in channels-first it is batch,
filters, rows, cols. -/
def Conv2D.compute_output_shape (l : Conv2D) (s : List ℤ) : List ℤ :=
  match l.dataFormat with
  | DataFormat.channelsLast =>
      [s.getD 0 0,
       convOutputLength (s.getD 1 0) l.kernel_size.1 l.strides.1 l.padding,
       convOutputLength (s.getD 2 0) l.kernel_size.2 l.strides.2 l.padding,
       (l.filters : ℤ)]
  | DataFormat.channelsFirst =>
      [s.getD 0 0,
       (l.filters : ℤ),
       convOutputLength (s.getD 2 0) l.kernel_size.1 l.strides.1 l.padding,
       convOutputLength (s.getD 3 0) l.kernel_size.2 l.strides.2 l.padding]

/-- A configuration value in a layer configuration mapping. -/
inductive ConfigVal
| nat (n : ℕ)
| pair (p : ℕ × ℕ)
| pad (p : Padding)
| fmt (f : DataFormat)
deriving DecidableEq, Repr

/-- Modelled from the framework: the configuration exported by Conv2D, as a
key-value list (the subset of keys relevant to this layer). -/
def Conv2D.get_config (l : Conv2D) : List (String × ConfigVal) :=
  [("filters", ConfigVal.nat l.filters),
   ("kernel_size", ConfigVal.pair l.kernel_size),
   ("strides", ConfigVal.pair l.strides),
   ("padding", ConfigVal.pad l.padding),
   ("data_format", ConfigVal.fmt l.dataFormat)]

/-- Python dict assignment: update the binding if the key is present,
otherwise append it. -/
def dictSet (d : List (String × ConfigVal)) (k : String) (v : ConfigVal) :
    List (String × ConfigVal) :=
  if d.any (fun kv => kv.1 = k) then
    d.map (fun kv => if kv.1 = k then (k, v) else kv)
  else d ++ [(k, v)]

/-- Python del on a dict key: remove the binding of the key. -/
def dictDel (d : List (String × ConfigVal)) (k : String) :
    List (String × ConfigVal) :=
  d.filter (fun kv => kv.1 ≠ k)

/-- Python dict lookup. -/
def dictGet (d : List (String × ConfigVal)) (k : String) : Option ConfigVal :=
  (d.find? (fun kv => kv.1 = k)).map (fun kv => kv.2)

/-- The GatedConv layer: the source extends Conv2D; modelled as a wrapper
owning the underlying convolution plus the stored n_filters. -/
structure GatedConv where
  conv : Conv2D
  n_filters : ℕ

/-- GatedConv constructor: configures the underlying convolution with
filters = n_filters * 2 and stores the requested n_filters. The learnable
weights, owned by the framework, are passed first; the remaining arguments
carry the python default values of the source. -/
def GatedConv.init (kW : ℕ → ℕ → ℕ → ℕ → ℝ) (bW : ℕ → ℝ)
    (n_filters : ℕ := 64) (kernel_size : ℕ × ℕ := (3, 3))
    (strides : ℕ × ℕ := (1, 1)) (padding : Padding := Padding.valid)
    (data_format : DataFormat := DataFormat.channelsLast) : GatedConv :=
  { conv :=
      { filters := n_filters * 2
        kernel_size := kernel_size
        strides := strides
        padding := padding
        dataFormat := data_format
        kernelW := kW
        biasW := bW }
    n_filters := n_filters }

/-- Python slice x[:, :, :, :n] along the channel (fourth) axis. -/
def Tensor4.sliceChannelsTo (x : Tensor4) (n : ℕ) : Tensor4 :=
  { x with channels := min n x.channels }

/-- Python slice x[:, :, :, n:] along the channel (fourth) axis. -/
def Tensor4.sliceChannelsFrom (x : Tensor4) (n : ℕ) : Tensor4 :=
  { x with channels := x.channels - n,
           data := fun b i j c => x.data b i j (c + n) }

/-- Modelled from the framework: the sigmoid activation function. -/
noncomputable def sigmoid (t : ℝ) : ℝ := 1 / (1 + Real.exp (-t))

/-- Modelled from the framework: the Activation layer applies a scalar
function elementwise; Activation linear is the identity on values. -/
def Activation (f : ℝ → ℝ) (x : Tensor4) : Tensor4 :=
  { x with data := fun b i j c => f (x.data b i j c) }

/-- Modelled from the framework: the Multiply layer, the elementwise
product of two same-shaped tensors. -/
def Multiply (a b : Tensor4) : Tensor4 :=
  { a with data := fun bb i j c => a.data bb i j c * b.data bb i j c }

/-- GatedConv forward computation: run the underlying convolution, split
the channel axis in two, apply linear and sigmoid activations, and
multiply the halves. -/
noncomputable def GatedConv.call (l : GatedConv) (inputs : Tensor4) : Tensor4 :=
  let output := l.conv.call inputs
  let linear := Activation id (output.sliceChannelsTo l.n_filters)
  let sigm := Activation sigmoid (output.sliceChannelsFrom l.n_filters)
  Multiply linear sigm

/-- GatedConv output shape: the superclass shape with the fourth component
replaced by n_filters. -/
def GatedConv.compute_output_shape (l : GatedConv) (input_shape : List ℤ) :
    List ℤ :=
  let output_shape := l.conv.compute_output_shape input_shape
  output_shape.take 3 ++ [(l.n_filters : ℤ)]

/-- GatedConv configuration export: the superclass configuration with the
n_filters entry added and the internal filters entry deleted. -/
def GatedConv.get_config (l : GatedConv) : List (String × ConfigVal) :=
  let config := l.conv.get_config
  let config := dictSet config "n_filters" (ConfigVal.nat l.n_filters)
  dictDel config "filters"

/-- Modelled from the framework: reconstruction of a layer from a saved
configuration calls the constructor with the saved entries as keyword
arguments; fresh weights are supplied by the framework. -/
def GatedConv.from_config (kW : ℕ → ℕ → ℕ → ℕ → ℝ) (bW : ℕ → ℝ)
    (config : List (String × ConfigVal)) : Option GatedConv :=
  match dictGet config "n_filters", dictGet config "kernel_size",
      dictGet config "strides", dictGet config "padding",
      dictGet config "data_format" with
  | some (ConfigVal.nat n), some (ConfigVal.pair k), some (ConfigVal.pair s),
      some (ConfigVal.pad p), some (ConfigVal.fmt f) =>
      some (GatedConv.init kW bW n k s p f)
  | _, _, _, _, _ => none

/-- Modelled from the framework: a BatchNormalization layer with axis -1,
holding per-channel parameters and moving statistics. -/
structure BatchNorm where
  gamma : ℕ → ℝ
  beta : ℕ → ℝ
  movingMean : ℕ → ℝ
  movingVar : ℕ → ℝ
  epsilon : ℝ

/-- Modelled from the framework: the BatchNormalization inference
computation, normalizing over the channel (last) axis. -/
noncomputable def BatchNorm.call (l : BatchNorm) (x : Tensor4) : Tensor4 :=
  { x with data := fun b i j c =>
      l.gamma c * ((x.data b i j c - l.movingMean c)
        / Real.sqrt (l.movingVar c + l.epsilon)) + l.beta c }

/-- Modelled from the framework: Dropout. In training mode each unit draws
a uniform sample u from the interval from 0 inclusive to 1 exclusive,
keeps the unit when rate ≤ u, and scales kept units by 1 / (1 - rate); in
inference mode it is the identity. -/
noncomputable def Dropout (rate : ℝ) (u : ℕ → ℕ → ℕ → ℕ → ℝ)
    (training : Bool) (x : Tensor4) : Tensor4 :=
  if training then
    { x with data := fun b i j c =>
        if rate ≤ u b i j c then x.data b i j c / (1 - rate) else 0 }
  else x

/-- Maximum of a tensor over one pooling window whose top-left corner is at
(i * ph, j * pw). -/
def poolWindowMax (x : Tensor4) (ph pw b i j c : ℕ) : ℝ :=
  (List.range ph).foldl
    (fun acc ki =>
      (List.range pw).foldl
        (fun acc2 kj => max acc2 (x.data b (i * ph + ki) (j * pw + kj) c)) acc)
    (x.data b (i * ph) (j * pw) c)

/-- Modelled from the framework: MaxPooling2D with the default stride equal
to the pool size and padding valid. -/
def MaxPooling2D (pool_size : ℕ × ℕ) (x : Tensor4) : Tensor4 :=
  { batch := x.batch
    height := (convOutputLength x.height pool_size.1 pool_size.1 Padding.valid).toNat
    width := (convOutputLength x.width pool_size.2 pool_size.2 Padding.valid).toNat
    channels := x.channels
    data := fun b i j c => poolWindowMax x pool_size.1 pool_size.2 b i j c }

/-- The framework-owned state of one block: kernels and biases of the two
gated convolutions, the two normalization layers, the two dropout unit
draws, and the training flag. -/
structure BlockWeights where
  k1 : ℕ → ℕ → ℕ → ℕ → ℝ
  b1 : ℕ → ℝ
  bn1 : BatchNorm
  u1 : ℕ → ℕ → ℕ → ℕ → ℝ
  k2 : ℕ → ℕ → ℕ → ℕ → ℝ
  b2 : ℕ → ℝ
  bn2 : BatchNorm
  u2 : ℕ → ℕ → ℕ → ℕ → ℝ
  training : Bool

/-- The block builder: two gated convolutions with padding same, each
followed by normalization over the channel axis and dropout, then a single
max-pooling over the given window. -/
noncomputable def block (w : BlockWeights) (x : Tensor4) (n_filters : ℕ := 64)
    (pool_size : ℕ × ℕ := (2, 2)) (dropout_rate : ℝ := 0.2) : Tensor4 :=
  let x1 := (GatedConv.init w.k1 w.b1 n_filters (3, 3) (1, 1) Padding.same).call x
  let x2 := w.bn1.call x1
  let x3 := Dropout dropout_rate w.u1 w.training x2
  let x4 := (GatedConv.init w.k2 w.b2 n_filters (3, 3) (1, 1) Padding.same).call x3
  let x5 := w.bn2.call x4
  let x6 := Dropout dropout_rate w.u2 w.training x5
  MaxPooling2D pool_size x6

/-! ### Helper lemmas -/

/-- A convolution with padding same and unit stride preserves a spatial
dimension. -/
@[simp]
lemma convOutputLength_same_one_toNat (h k : ℕ) :
    (convOutputLength (h : ℤ) k 1 Padding.same).toNat = h := by
  simp [convOutputLength, Int.fdiv_one]

/-- Pooling with window 2, stride 2 and padding valid halves a spatial
dimension with floor rounding. -/
@[simp]
lemma convOutputLength_valid_two_toNat (h : ℕ) :
    (convOutputLength (h : ℤ) 2 2 Padding.valid).toNat = h / 2 := by
  simp only [convOutputLength]
  rw [Int.fdiv_eq_ediv _ (Int.natCast_nonneg 2)]
  omega

@[simp]
lemma GatedConv_call_batch (l : GatedConv) (x : Tensor4) :
    (l.call x).batch = x.batch := rfl

@[simp]
lemma GatedConv_call_height (l : GatedConv) (x : Tensor4) :
    (l.call x).height =
      (convOutputLength x.height l.conv.kernel_size.1 l.conv.strides.1
        l.conv.padding).toNat := rfl

@[simp]
lemma GatedConv_call_width (l : GatedConv) (x : Tensor4) :
    (l.call x).width =
      (convOutputLength x.width l.conv.kernel_size.2 l.conv.strides.2
        l.conv.padding).toNat := rfl

@[simp]
lemma GatedConv_call_channels (l : GatedConv) (x : Tensor4) :
    (l.call x).channels = min l.n_filters l.conv.filters := rfl

@[simp]
lemma BatchNorm_call_batch (l : BatchNorm) (x : Tensor4) :
    (l.call x).batch = x.batch := rfl

@[simp]
lemma BatchNorm_call_height (l : BatchNorm) (x : Tensor4) :
    (l.call x).height = x.height := rfl

@[simp]
lemma BatchNorm_call_width (l : BatchNorm) (x : Tensor4) :
    (l.call x).width = x.width := rfl

@[simp]
lemma BatchNorm_call_channels (l : BatchNorm) (x : Tensor4) :
    (l.call x).channels = x.channels := rfl

@[simp]
lemma Dropout_batch (r : ℝ) (u : ℕ → ℕ → ℕ → ℕ → ℝ) (t : Bool) (x : Tensor4) :
    (Dropout r u t x).batch = x.batch := by
  unfold Dropout; split <;> rfl

@[simp]
lemma Dropout_height (r : ℝ) (u : ℕ → ℕ → ℕ → ℕ → ℝ) (t : Bool) (x : Tensor4) :
    (Dropout r u t x).height = x.height := by
  unfold Dropout; split <;> rfl

@[simp]
lemma Dropout_width (r : ℝ) (u : ℕ → ℕ → ℕ → ℕ → ℝ) (t : Bool) (x : Tensor4) :
    (Dropout r u t x).width = x.width := by
  unfold Dropout; split <;> rfl

@[simp]
lemma Dropout_channels (r : ℝ) (u : ℕ → ℕ → ℕ → ℕ → ℝ) (t : Bool) (x : Tensor4) :
    (Dropout r u t x).channels = x.channels := by
  unfold Dropout; split <;> rfl

@[simp]
lemma MaxPooling2D_batch (ps : ℕ × ℕ) (x : Tensor4) :
    (MaxPooling2D ps x).batch = x.batch := rfl

@[simp]
lemma MaxPooling2D_height (ps : ℕ × ℕ) (x : Tensor4) :
    (MaxPooling2D ps x).height =
      (convOutputLength x.height ps.1 ps.1 Padding.valid).toNat := rfl

@[simp]
lemma MaxPooling2D_width (ps : ℕ × ℕ) (x : Tensor4) :
    (MaxPooling2D ps x).width =
      (convOutputLength x.width ps.2 ps.2 Padding.valid).toNat := rfl

@[simp]
lemma MaxPooling2D_channels (ps : ℕ × ℕ) (x : Tensor4) :
    (MaxPooling2D ps x).channels = x.channels := rfl

/-- The sigmoid function is strictly positive. -/
lemma sigmoid_pos (t : ℝ) : 0 < sigmoid t :=
  div_pos one_pos (by positivity)

/-- The sigmoid function is strictly below one. -/
lemma sigmoid_lt_one (t : ℝ) : sigmoid t < 1 := by
  unfold sigmoid
  rw [div_lt_one (by positivity)]
  linarith [Real.exp_pos (-t)]

/-- Pointwise form of the gated convolution output. -/
lemma GatedConv_call_data (l : GatedConv) (x : Tensor4) (b i j c : ℕ) :
    (l.call x).data b i j c =
      (l.conv.call x).data b i j c *
        sigmoid ((l.conv.call x).data b i j (c + l.n_filters)) := rfl

/-! ### Concrete instances used by witnesses -/

/-- A tiny gated convolution with all-zero weights, used as a concrete
witness input. -/
noncomputable def exampleGC : GatedConv :=
  GatedConv.init (fun _ _ _ _ => 0) (fun _ => 0) 1 (1, 1) (1, 1) Padding.valid

/-- A one-element all-zero tensor. -/
def exampleX : Tensor4 := ⟨1, 1, 1, 1, fun _ _ _ _ => 0⟩

/-- A constant-zero uniform draw, a legal sample from the unit interval. -/
def exampleU : ℕ → ℕ → ℕ → ℕ → ℝ := fun _ _ _ _ => 0

/-- A one-element tensor holding the value three. -/
def exampleX8 : Tensor4 := ⟨1, 1, 1, 1, fun _ _ _ _ => 3⟩

/-! ### Claim theorems -/

/-- C1: on any input tensor, the gated convolution runs the doubled-width
convolution, splits its result along the channel axis into two halves of
n_filters channels each, applies the identity to the first half and the
sigmoid to the second, and returns their elementwise product. -/
theorem gatedConv_call_gates (kW : ℕ → ℕ → ℕ → ℕ → ℝ) (bW : ℕ → ℝ)
    (n : ℕ) (ks ss : ℕ × ℕ) (p : Padding) (df : DataFormat) (x : Tensor4) :
    let l := GatedConv.init kW bW n ks ss p df
    let co := l.conv.call x
    l.call x =
        Multiply (Activation id (co.sliceChannelsTo n))
          (Activation sigmoid (co.sliceChannelsFrom n)) ∧
      co.channels = n * 2 ∧
      (co.sliceChannelsTo n).channels = n ∧
      (co.sliceChannelsFrom n).channels = n ∧
      ∀ b i j c, (l.call x).data b i j c =
        co.data b i j c * sigmoid (co.data b i j (c + n)) := by
  refine ⟨rfl, rfl, ?_, ?_, fun b i j c => rfl⟩
  · show min n (n * 2) = n
    omega
  · show n * 2 - n = n
    omega

/-- C2: for every input tensor and requested channel count n, with any
kernel size, stride, and padding, the gated convolution output has exactly
n channels (never 2n), and the reported output shape is the underlying
convolution output shape with the channel dimension replaced by n. -/
theorem gatedConv_output_channels (kW : ℕ → ℕ → ℕ → ℕ → ℝ) (bW : ℕ → ℝ)
    (n : ℕ) (ks ss : ℕ × ℕ) (p : Padding) (x : Tensor4) (s : List ℤ) :
    let l := GatedConv.init kW bW n ks ss p DataFormat.channelsLast
    (l.call x).channels = n ∧
      l.compute_output_shape s
        = (l.conv.compute_output_shape s).set 3 (n : ℤ) := by
  refine ⟨?_, rfl⟩
  show min n (n * 2) = n
  omega

/-- C3: a GatedConv constructed with requested count n configures the
underlying convolution with exactly 2 * n filters, while the stored and
externally reported count stays n. -/
theorem gatedConv_doubles_filters (kW : ℕ → ℕ → ℕ → ℕ → ℝ) (bW : ℕ → ℝ)
    (n : ℕ) (ks ss : ℕ × ℕ) (p : Padding) (df : DataFormat) :
    (GatedConv.init kW bW n ks ss p df).conv.filters = 2 * n ∧
      (GatedConv.init kW bW n ks ss p df).n_filters = n ∧
      dictGet (GatedConv.init kW bW n ks ss p df).get_config "n_filters"
        = some (ConfigVal.nat n) := by
  refine ⟨?_, rfl, rfl⟩
  show n * 2 = 2 * n
  omega

/-- C4: the exported configuration holds the un-doubled count under the
n_filters key, has no filters key, and reconstructing a fresh layer from it
reproduces the requested channel count, kernel size, stride, and padding. -/
theorem gatedConv_config_roundtrip (kW kW2 : ℕ → ℕ → ℕ → ℕ → ℝ)
    (bW bW2 : ℕ → ℝ) (n : ℕ) (ks ss : ℕ × ℕ) (p : Padding)
    (df : DataFormat) :
    let l := GatedConv.init kW bW n ks ss p df
    dictGet l.get_config "n_filters" = some (ConfigVal.nat n) ∧
      dictGet l.get_config "filters" = none ∧
      GatedConv.from_config kW2 bW2 l.get_config
        = some (GatedConv.init kW2 bW2 n ks ss p df) :=
  ⟨rfl, rfl, rfl⟩

/-- C5: the block applies gated convolution, normalization over the channel
axis, and dropout, twice in sequence, followed by a single max-pooling
over the given window, and returns the pooled tensor. -/
theorem block_sequence (w : BlockWeights) (x : Tensor4) (n : ℕ)
    (ps : ℕ × ℕ) (r : ℝ) :
    block w x n ps r =
      MaxPooling2D ps
        (Dropout r w.u2 w.training
          (w.bn2.call
            ((GatedConv.init w.k2 w.b2 n (3, 3) (1, 1) Padding.same).call
              (Dropout r w.u1 w.training
                (w.bn1.call
                  ((GatedConv.init w.k1 w.b1 n (3, 3) (1, 1)
                      Padding.same).call x)))))) := rfl

/-- C6: with pooling window (2, 2) the block halves both spatial
dimensions with the floor rounding of padding valid; in particular an
input of shape (1, 8, 8, 3) with n_filters 4 gives output shape
(1, 4, 4, 4). -/
theorem block_output_shape (w : BlockWeights) (r : ℝ) (x : Tensor4) (n : ℕ)
    (d : ℕ → ℕ → ℕ → ℕ → ℝ) :
    (block w x n (2, 2) r).height = x.height / 2 ∧
      (block w x n (2, 2) r).width = x.width / 2 ∧
      (block w (Tensor4.mk 1 8 8 3 d) 4 (2, 2) r).batch = 1 ∧
      (block w (Tensor4.mk 1 8 8 3 d) 4 (2, 2) r).height = 4 ∧
      (block w (Tensor4.mk 1 8 8 3 d) 4 (2, 2) r).width = 4 ∧
      (block w (Tensor4.mk 1 8 8 3 d) 4 (2, 2) r).channels = 4 := by
  refine ⟨?_, ?_, ?_, ?_, ?_, ?_⟩ <;>
    simp [block, GatedConv.init] <;> decide

/-- C7: every gated output value is the corresponding linear half scaled by
a sigmoid factor strictly between 0 and 1: a nonnegative linear value puts
the output in the interval from 0 to the linear value, a negative one puts
it in the interval from the linear value to 0. -/
theorem gatedConv_output_range (l : GatedConv) (x : Tensor4) (b i j c : ℕ) :
    (0 ≤ (l.conv.call x).data b i j c →
        0 ≤ (l.call x).data b i j c ∧
          (l.call x).data b i j c ≤ (l.conv.call x).data b i j c) ∧
      ((l.conv.call x).data b i j c < 0 →
        (l.conv.call x).data b i j c ≤ (l.call x).data b i j c ∧
          (l.call x).data b i j c ≤ 0) := by
  have hs := sigmoid_pos ((l.conv.call x).data b i j (c + l.n_filters))
  have hs1 := sigmoid_lt_one ((l.conv.call x).data b i j (c + l.n_filters))
  rw [GatedConv_call_data]
  constructor
  · intro h
    exact ⟨mul_nonneg h hs.le, by nlinarith⟩
  · intro h
    constructor <;> nlinarith

/-- Witness for C7 at the all-zero layer and input: the linear half is 0
there, and the output lies between 0 and that linear value. -/
theorem gatedConv_output_range_witness :
    0 ≤ (exampleGC.conv.call exampleX).data 0 0 0 0 ∧
      0 ≤ (exampleGC.call exampleX).data 0 0 0 0 ∧
      (exampleGC.call exampleX).data 0 0 0 0
        ≤ (exampleGC.conv.call exampleX).data 0 0 0 0 := by
  have hL : (exampleGC.conv.call exampleX).data 0 0 0 0 = 0 := by
    simp [exampleGC, exampleX, GatedConv.init, Conv2D.call, Tensor4.getPadded]
  have h0 : 0 ≤ (exampleGC.conv.call exampleX).data 0 0 0 0 := le_of_eq hL.symm
  exact ⟨h0, ((gatedConv_output_range exampleGC exampleX 0 0 0 0).1 h0).1,
    ((gatedConv_output_range exampleGC exampleX 0 0 0 0).1 h0).2⟩

/-- C8: dropout at probability 0 leaves every value unchanged, so each of
the two dropout stages of a block built with dropout rate 0 is the
identity on its input (the uniform unit draws are nonnegative). -/
theorem dropout_zero_identity (u : ℕ → ℕ → ℕ → ℕ → ℝ) (training : Bool)
    (x : Tensor4) (hu : ∀ b i j c, 0 ≤ u b i j c) :
    Dropout 0 u training x = x := by
  cases x with
  | mk bb hh ww cc d =>
    unfold Dropout
    split
    · congr 1
      funext b i j c
      rw [if_pos (hu b i j c)]
      norm_num
    · rfl

/-- Witness for C8: dropout at rate 0 with the zero draw leaves a concrete
tensor unchanged. -/
theorem dropout_zero_identity_witness :
    Dropout 0 exampleU true exampleX8 = exampleX8 :=
  dropout_zero_identity exampleU true exampleX8
    (fun _ _ _ _ => le_refl 0)

/-- C9: the gated convolution splits channels along the last axis and its
shape computation replaces the fourth dimension with n_filters
unconditionally: the fourth reported dimension is n_filters for either
data format, under channels-first the doubled filter count still sits at
index 1, the forward computation is unchanged by the data format option,
and the output at channel c multiplies conv channels c and c + n. -/
theorem gatedConv_channels_axis_hardcoded (kW : ℕ → ℕ → ℕ → ℕ → ℝ)
    (bW : ℕ → ℝ) (n : ℕ) (ks ss : ℕ × ℕ) (p : Padding) (df : DataFormat)
    (s : List ℤ) (x : Tensor4) :
    ((GatedConv.init kW bW n ks ss p df).compute_output_shape s).get? 3
        = some (n : ℤ) ∧
      ((GatedConv.init kW bW n ks ss p df).compute_output_shape s).length = 4 ∧
      ((GatedConv.init kW bW n ks ss p
          DataFormat.channelsFirst).compute_output_shape s).get? 1
        = some ((n * 2 : ℕ) : ℤ) ∧
      (GatedConv.init kW bW n ks ss p df).call x
        = (GatedConv.init kW bW n ks ss p DataFormat.channelsLast).call x ∧
      ∀ b i j c,
        ((GatedConv.init kW bW n ks ss p df).call x).data b i j c
          = ((GatedConv.init kW bW n ks ss p df).conv.call x).data b i j c
              * sigmoid (((GatedConv.init kW bW n ks ss p df).conv.call
                  x).data b i j (c + n)) := by
  refine ⟨?_, ?_, rfl, ?_, fun b i j c => rfl⟩
  · cases df <;> rfl
  · cases df <;> rfl
  · cases df <;> rfl

/-- C10: both gated convolutions of the block use padding same with the
default 3 by 3 kernel and unit stride, so each preserves spatial size and
only the final pooling changes it (the block spatial output is the pooling
formula applied to the original input size); the block defaults are
n_filters 64, pool size (2, 2), dropout rate 0.2, and a bare GatedConv
defaults to n_filters 64, kernel (3, 3), stride (1, 1), padding valid. -/
theorem block_same_padding_defaults (w : BlockWeights) (x y : Tensor4)
    (n : ℕ) (ps : ℕ × ℕ) (r : ℝ) (kW : ℕ → ℕ → ℕ → ℕ → ℝ) (bW : ℕ → ℝ) :
    ((GatedConv.init kW bW n (3, 3) (1, 1) Padding.same).call y).height
        = y.height ∧
      ((GatedConv.init kW bW n (3, 3) (1, 1) Padding.same).call y).width
        = y.width ∧
      (block w x n ps r).height
        = (convOutputLength x.height ps.1 ps.1 Padding.valid).toNat ∧
      (block w x n ps r).width
        = (convOutputLength x.width ps.2 ps.2 Padding.valid).toNat ∧
      block w x = block w x 64 (2, 2) 0.2 ∧
      GatedConv.init kW bW
        = GatedConv.init kW bW 64 (3, 3) (1, 1) Padding.valid
            DataFormat.channelsLast := by
  refine ⟨?_, ?_, ?_, ?_, rfl, rfl⟩ <;>
    simp [block, GatedConv.init]

end GCCaps
